import Mathlib

/-!
Verification of the CSV-dashboard script (src/dashboard.py) against its
natural-language specification.  The script is embedded shallowly: a pandas
DataFrame becomes `Table` (a column-name list, a dtype list, and a list of
rows, each row a list of cells); a cell is `Val` (a numeric value, a string,
or the missing marker `na`).  Library calls made by the script
(pd.read_csv, Series.unique, Series.isin, DataFrame.pivot_table,
st.cache_data) are embedded with their documented semantics at the call
site; the script's own control flow (the try/except, the numeric-column
guard, the empty-selection guard) is embedded as written.
-/

/-- A cell value of the loaded table: a numeric value (integers and floats
are both represented exactly as integers here, since no claim depends on
float rounding), a string, or the missing marker (pandas NaN / NA). -/
inductive Val where
  | num : Int → Val
  | str : String → Val
  | na : Val
deriving DecidableEq, Repr

/-- The dtype pandas infers for a column, as far as the script inspects it:
`select_dtypes(include=['float', 'int'])` only distinguishes numeric kinds
from everything else. -/
inductive Dtype where
  | dint : Dtype
  | dfloat : Dtype
  | dobject : Dtype
deriving DecidableEq, Repr

/-- The in-memory table `df` produced by `load_data` (dashboard.py line 25):
ordered column names, one dtype per column, and the rows, each row one cell
per column. -/
structure Table where
  cols : List String
  dtypes : List Dtype
  rows : List (List Val)
deriving DecidableEq, Repr

/-- Well-formedness of a parsed table: every row has one cell per column.
`pd.read_csv` always produces rectangular frames, so every loaded table
satisfies this. -/
def Table.WF (t : Table) : Prop := ∀ r ∈ t.rows, r.length = t.cols.length

instance (t : Table) : Decidable t.WF := by
  unfold Table.WF; infer_instance

/-- Reading cell `c` of a row of a table with columns `cols`: the embedding
of `row[c]` / column access `df[c]` at row granularity.  A column name not
present yields `na`; the script only ever passes names drawn from
`df.columns`. -/
def cellAt (cols : List String) (r : List Val) (c : String) : Val :=
  match cols.indexOf? c with
  | some i => r.getD i Val.na
  | none => Val.na

/-- The values of column `c` in row order: the embedding of `df[c]`. -/
def Table.colValues (t : Table) (c : String) : List Val :=
  t.rows.map (fun r => cellAt t.cols r c)

/-- Whether a cell is missing: the embedding of the elementwise
`df.isna()` (dashboard.py line 32). -/
def isnaB (v : Val) : Bool := v == Val.na

/-- The embedding of `df.shape`: (row count, column count)
(dashboard.py lines 30 and 31). -/
def Table.shape (t : Table) : Nat × Nat := (t.rows.length, t.cols.length)

/-- Missing cells in column number `j`: one entry of `df.isna().sum()`,
which counts the `True` cells of column `j`. -/
def colMissingCount (t : Table) (j : Nat) : Nat :=
  t.rows.countP (fun r => isnaB (r.getD j Val.na))

/-- The embedding of `df.isna().sum().sum()` (dashboard.py line 32):
per-column missing counts, summed over the columns. -/
def missingValues (t : Table) : Nat :=
  ((List.range t.cols.length).map (colMissingCount t)).sum

/-- Missing cells of a single row. -/
def rowMissing (r : List Val) : Nat := r.countP isnaB

/-- The cell-major total of the is-missing predicate over the whole table:
the quantity the spec describes ("sum over every cell of an is-empty
predicate"). -/
def totalCellMissing (t : Table) : Nat := (t.rows.map rowMissing).sum

/-- Worker for first-encounter deduplication: `seen` holds the values
already emitted. -/
def dedupFirstAux {α : Type} [DecidableEq α] (seen : List α) :
    List α → List α
  | [] => []
  | v :: rest =>
    if v ∈ seen then dedupFirstAux seen rest
    else v :: dedupFirstAux (v :: seen) rest

/-- First-encounter deduplication: the embedding of
`pd.Series.unique`, which returns the distinct values in order of first
appearance (dashboard.py line 70). -/
def dedupFirst {α : Type} [DecidableEq α] (l : List α) : List α :=
  dedupFirstAux [] l

/-- The embedding of `unique_items = df[color_col].unique()`
(dashboard.py line 70). -/
def Table.uniqueCol (t : Table) (c : String) : List Val :=
  dedupFirst (t.colValues c)

/-- The embedding of `default=unique_items[:5]` (dashboard.py line 76):
the multiselect's pre-selected values. -/
def multiselectDefault (t : Table) (c : String) : List Val :=
  (t.uniqueCol c).take 5

/-- The embedding of
`numeric_cols = df.select_dtypes(include=['float', 'int']).columns.tolist()`
(dashboard.py line 43): the names of the columns whose dtype is float or
int, in column order. -/
def numericCols (t : Table) : List String :=
  (t.cols.zip t.dtypes).filterMap
    (fun p => if p.2 = Dtype.dfloat ∨ p.2 = Dtype.dint then some p.1 else none)

/-- The embedding of `filtered_df = df[df[color_col].isin(selected_items)]`
(dashboard.py line 81): keep the rows whose `c`-cell is a member of `sel`
(pandas `isin` also matches the missing marker, as the model does). -/
def filterIsin (t : Table) (c : String) (sel : List Val) : Table :=
  { t with rows := t.rows.filter (fun r => sel.contains (cellAt t.cols r c)) }

/-- A cell's numeric content, if any; `sum` aggregation skips missing and
non-numeric cells. -/
def numVal : Val → Option Int
  | Val.num n => some n
  | _ => none

/-- The rows of `t` whose `xc`-cell is `x` and whose `gc`-cell is `g`: the
group of rows pivot_table aggregates into output cell `(x, g)`. -/
def matchRows (t : Table) (xc gc : String) (x g : Val) : List (List Val) :=
  t.rows.filter
    (fun r => cellAt t.cols r xc == x && cellAt t.cols r gc == g)

/-- Sum aggregation of the `yc`-cells of a group of rows: the
`aggfunc='sum'` of the pivot (dashboard.py line 90). -/
def ySum (t : Table) (yc : String) (rs : List (List Val)) : Int :=
  (rs.filterMap (fun r => numVal (cellAt t.cols r yc))).sum

/-- One cell of
`t.pivot_table(index=xc, columns=gc, values=yc, aggfunc='sum')`
(dashboard.py lines 86-91): the summed `yc` over the rows with that `xc`
value and that `gc` value, or absent (NaN in pandas) when no row matches. -/
def pivotCell (t : Table) (xc gc yc : String) (x g : Val) : Option Int :=
  if (matchRows t xc gc x g).isEmpty then none
  else some (ySum t yc (matchRows t xc gc x g))

/-- The index of the pivoted table: the distinct non-missing `xc` values of
`t` (pivot_table's default dropna excludes missing keys; its default sort
order is left unspecified by the spec, so the model keeps first-encounter
order, which has the same elements and the same emptiness). -/
def pivotIndex (t : Table) (xc : String) : List Val :=
  dedupFirst ((t.colValues xc).filter (fun v => v ≠ Val.na))

/-- The columns of the pivoted table: the distinct non-missing `gc` values
of `t` (order unspecified by the spec; the model keeps first-encounter
order). -/
def pivotGroups (t : Table) (gc : String) : List Val :=
  dedupFirst ((t.colValues gc).filter (fun v => v ≠ Val.na))

/-- The whole pivoted table of
`t.pivot_table(index=xc, columns=gc, values=yc, aggfunc='sum')`: one entry
per index value, each holding one cell per group column. -/
def pivotOut (t : Table) (xc gc yc : String) :
    List (Val × List (Val × Option Int)) :=
  (pivotIndex t xc).map
    (fun x => (x, (pivotGroups t gc).map (fun g => (g, pivotCell t xc gc yc x g))))

/-- One cell of `chart_data` (dashboard.py lines 81-91): filter `df` to the
selected group values, then pivot with index `xc`, columns `gc`, values
`yc`, aggfunc sum. -/
def chartDataCell (t : Table) (xc gc yc : String) (sel : List Val)
    (x g : Val) : Option Int :=
  pivotCell (filterIsin t gc sel) xc gc yc x g

/-- The index (row set) of `chart_data`. -/
def chartDataIndex (t : Table) (xc gc : String) (sel : List Val) : List Val :=
  pivotIndex (filterIsin t gc sel) xc

/-- The whole `chart_data` table handed to `st.bar_chart`
(dashboard.py lines 86-94). -/
def chartDataFull (t : Table) (xc gc yc : String) (sel : List Val) :
    List (Val × List (Val × Option Int)) :=
  pivotOut (filterIsin t gc sel) xc gc yc

/-- Written from the spec's words (§4.5 and the C1 property), to be compared
with the implementation: keep exactly the rows whose Group-column value is a
member of the chosen subset, and let cell `(x, g)` be the sum of Y over all
kept rows with that X value and that Group value, absent when no kept row
matches. -/
def specAggCell (t : Table) (xc gc yc : String) (sel : List Val)
    (x g : Val) : Option Int :=
  let kept := t.rows.filter (fun r => sel.contains (cellAt t.cols r gc))
  let matched := kept.filter
    (fun r => cellAt t.cols r xc == x && cellAt t.cols r gc == g)
  if matched.isEmpty then none
  else some ((matched.filterMap (fun r => numVal (cellAt t.cols r yc))).sum)

/-- The outcome of one `load_data` call through the memoizing decorator:
the parsed table, the cache after the call, and how many times the parser
ran during the call. -/
structure LoadResult where
  table : Table
  cache : List (Nat × Table)
  parserCalls : Nat
deriving Repr

/-- Lookup in the memoization cache, keyed by file identity. -/
def cacheLookup : List (Nat × Table) → Nat → Option Table
  | [], _ => none
  | (k, v) :: rest, f => if k = f then some v else cacheLookup rest f

/-- Modelled from the spec (§4.1): `@st.cache_data def load_data(file):
return pd.read_csv(file)` (dashboard.py lines 11-13).  `st.cache_data` and
`pd.read_csv` are library code not in this repository; per the spec the
decorator memoizes by file identity, returning the previously parsed table
without re-invoking the parser.  `parse` stands for the successful parse
and file identities are numbered. -/
def load_data (parse : Nat → Table) (cache : List (Nat × Table))
    (f : Nat) : LoadResult :=
  match cacheLookup cache f with
  | some t => ⟨t, cache, 0⟩
  | none => ⟨parse f, (f, parse f) :: cache, 1⟩

/-- The UI elements the script can emit, with the payloads the claims talk
about.  `metric` carries its numeric value, `multiselect` carries its
offered options and its default selection, `barChart` carries the index of
the pivoted table it draws. -/
inductive Widget where
  | metric : String → Nat → Widget
  | preview : Widget
  | selectbox : String → Widget
  | textW : String → Widget
  | info : String → Widget
  | multiselect : List Val → List Val → Widget
  | warning : String → Widget
  | barChart : List (Val × List (Val × Option Int)) → Widget
  | chartDataView : Widget
  | errorMsg : String → Widget
deriving DecidableEq, Repr

/-- The empty-selection warning text (dashboard.py line 100). -/
def selWarnMsg : String :=
  "Please select at least one item from the box above to generate the chart."

/-- The no-numeric-columns warning text (dashboard.py line 103). -/
def noNumMsg : String := "No numeric columns found in this CSV to plot."

/-- The metrics section (dashboard.py lines 29-32): three metric widgets
computed from `df.shape` and `df.isna().sum().sum()`; returns the widgets
together with the table as left by the section. -/
def metricsSection (t : Table) : List Widget × Table :=
  ([Widget.metric "Total Rows" t.shape.1,
    Widget.metric "Total Columns" t.shape.2,
    Widget.metric "Missing Values" (missingValues t)], t)

/-- The preview section (dashboard.py lines 35-36): `st.dataframe(df.head())`
inside an expander; a pure read of the table. -/
def previewSection (t : Table) : List Widget × Table :=
  ([Widget.preview], t)

/-- The plotting section (dashboard.py lines 43-103): when numeric columns
exist, show the three pickers and the group multiselect, then either the
filtered-and-pivoted bar chart (non-empty selection) or the
empty-selection warning; when no numeric column exists, only the warning.
`xc`, `yc`, `gc` and `sel` are the choices read back from the widgets;
returns the widgets together with the table as left by the section. -/
def plottingSection (t : Table) (xc yc gc : String) (sel : List Val) :
    List Widget × Table :=
  if (numericCols t).isEmpty then ([Widget.warning noNumMsg], t)
  else
    ([Widget.selectbox "X-Axis (Time)",
      Widget.selectbox "Y-Axis (Value)",
      Widget.selectbox "Color Code By",
      Widget.textW ("### Filter by " ++ gc),
      Widget.info "Select specific items to compare. Showing top 5 by default.",
      Widget.multiselect (t.uniqueCol gc) (multiselectDefault t gc)] ++
     (if sel.isEmpty then [Widget.warning selWarnMsg]
      else [Widget.barChart (chartDataFull t xc gc yc sel),
            Widget.chartDataView]), t)

/-- The body of the try-block on a successfully loaded table
(dashboard.py lines 27-103): metrics, preview, plotting, each section
handed the table the previous one left behind; returns all widgets and the
final table. -/
def scriptOk (t : Table) (xc yc gc : String) (sel : List Val) :
    List Widget × Table :=
  let m := metricsSection t
  let p := previewSection m.2
  let pl := plottingSection p.2 xc yc gc sel
  (m.1 ++ p.1 ++ pl.1, pl.2)

/-- The whole per-interaction run (dashboard.py lines 21-108): nothing
uploaded shows the info banner; otherwise the try-block loads and renders,
and any loading/processing failure (`parse` returning an error, standing
for any exception pandas raises on a non-CSV or corrupt file) is caught by
the top-level except and rendered as `st.error("Error processing file: ...")`,
ending the run early. -/
def runApp (parse : Nat → Except String Table) (uploaded : Option Nat)
    (xc yc gc : String) (sel : List Val) : List Widget :=
  match uploaded with
  | none => [Widget.info "Waiting for you to upload a CSV file in the sidebar."]
  | some f =>
    match parse f with
    | Except.error e => [Widget.errorMsg ("Error processing file: " ++ e)]
    | Except.ok df => (scriptOk df xc yc gc sel).1

/-- The table of the spec's worked example:
rows (X=1, G="a", Y=10), (X=1, G="b", Y=5), (X=2, G="a", Y=3). -/
def exampleT : Table :=
  { cols := ["X", "G", "Y"],
    dtypes := [Dtype.dint, Dtype.dobject, Dtype.dint],
    rows := [[Val.num 1, Val.str "a", Val.num 10],
             [Val.num 1, Val.str "b", Val.num 5],
             [Val.num 2, Val.str "a", Val.num 3]] }

/-- A small table with two missing cells, used to exercise the metrics. -/
def gapT : Table :=
  { cols := ["A", "B"],
    dtypes := [Dtype.dint, Dtype.dobject],
    rows := [[Val.num 1, Val.na],
             [Val.na, Val.str "x"],
             [Val.num 3, Val.str "y"]] }

/-- A table with no numeric column. -/
def textOnlyT : Table :=
  { cols := ["N"],
    dtypes := [Dtype.dobject],
    rows := [[Val.str "p"], [Val.str "q"]] }

/-! Helper lemmas about first-encounter deduplication and counting. -/

theorem mem_dedupFirstAux {α : Type} [DecidableEq α] (a : α) :
    ∀ (l seen : List α), a ∈ dedupFirstAux seen l ↔ a ∈ l ∧ a ∉ seen := by
  intro l
  induction l with
  | nil => intro seen; simp [dedupFirstAux]
  | cons v rest ih =>
    intro seen
    by_cases hv : v ∈ seen
    · simp only [dedupFirstAux, if_pos hv, ih, List.mem_cons]
      constructor
      · exact fun h => ⟨Or.inr h.1, h.2⟩
      · rintro ⟨rfl | h1, h2⟩
        · exact absurd hv h2
        · exact ⟨h1, h2⟩
    · simp only [dedupFirstAux, if_neg hv, List.mem_cons, ih]
      constructor
      · rintro (rfl | ⟨h1, h2⟩)
        · exact ⟨Or.inl rfl, hv⟩
        · exact ⟨Or.inr h1, fun hs => h2 (Or.inr hs)⟩
      · rintro ⟨h1, h2⟩
        by_cases hav : a = v
        · exact Or.inl hav
        · rcases h1 with rfl | h1
          · exact Or.inl rfl
          · exact Or.inr ⟨h1, fun hs => hs.elim hav h2⟩

theorem mem_dedupFirst {α : Type} [DecidableEq α] (a : α) (l : List α) :
    a ∈ dedupFirst l ↔ a ∈ l := by
  unfold dedupFirst
  rw [mem_dedupFirstAux]
  simp

theorem dedupFirstAux_sublist {α : Type} [DecidableEq α] :
    ∀ (l seen : List α), (dedupFirstAux seen l).Sublist l := by
  intro l
  induction l with
  | nil => intro seen; simp [dedupFirstAux]
  | cons v rest ih =>
    intro seen
    by_cases hv : v ∈ seen
    · simp only [dedupFirstAux, if_pos hv]
      exact (ih seen).cons v
    · simp only [dedupFirstAux, if_neg hv]
      exact (ih (v :: seen)).cons₂ v

theorem dedupFirst_sublist {α : Type} [DecidableEq α] (l : List α) :
    (dedupFirst l).Sublist l :=
  dedupFirstAux_sublist l []

theorem dedupFirstAux_nodup {α : Type} [DecidableEq α] :
    ∀ (l seen : List α), (dedupFirstAux seen l).Nodup := by
  intro l
  induction l with
  | nil => intro seen; simp [dedupFirstAux]
  | cons v rest ih =>
    intro seen
    by_cases hv : v ∈ seen
    · simp only [dedupFirstAux, if_pos hv]
      exact ih seen
    · simp only [dedupFirstAux, if_neg hv]
      refine List.nodup_cons.mpr ⟨fun hmem => ?_, ih (v :: seen)⟩
      exact ((mem_dedupFirstAux v rest (v :: seen)).mp hmem).2
        (List.mem_cons_self v seen)

theorem dedupFirst_nodup {α : Type} [DecidableEq α] (l : List α) :
    (dedupFirst l).Nodup :=
  dedupFirstAux_nodup l []

theorem sum_map_add {α : Type} (f g : α → Nat) (l : List α) :
    (l.map (fun x => f x + g x)).sum = (l.map f).sum + (l.map g).sum := by
  induction l with
  | nil => rfl
  | cons a l ih =>
    simp only [List.map_cons, List.sum_cons, ih]
    omega

theorem range_sum_countP (r : List Val) :
    ((List.range r.length).map
      (fun j => if isnaB (r.getD j Val.na) then 1 else 0)).sum
      = r.countP isnaB := by
  induction r with
  | nil => rfl
  | cons v r ih =>
    rw [List.length_cons, List.range_succ_eq_map, List.map_cons,
      List.map_map, List.sum_cons, List.countP_cons]
    simp only [Function.comp_def, List.getD_cons_succ, List.getD_cons_zero]
    rw [ih]
    by_cases h : isnaB v
    · simp [h]; omega
    · simp [h]

theorem missing_swap (C : Nat) :
    ∀ (rows : List (List Val)), (∀ r ∈ rows, r.length = C) →
      ((List.range C).map
        (fun j => rows.countP (fun r => isnaB (r.getD j Val.na)))).sum
        = (rows.map rowMissing).sum := by
  intro rows
  induction rows with
  | nil => intro _; simp
  | cons r rest ih =>
    intro h
    have hr : r.length = C := h r (List.mem_cons_self r rest)
    have hrest : ∀ q ∈ rest, q.length = C :=
      fun q hq => h q (List.mem_cons_of_mem r hq)
    have hrow : ((List.range C).map
        (fun j => if isnaB (r.getD j Val.na) then 1 else 0)).sum
        = rowMissing r := by
      rw [← hr]
      exact range_sum_countP r
    simp only [List.countP_cons]
    rw [sum_map_add (fun j => rest.countP (fun q => isnaB (q.getD j Val.na)))
      (fun j => if isnaB (r.getD j Val.na) then 1 else 0) (List.range C),
      ih hrest, hrow, List.map_cons, List.sum_cons]
    omega

theorem missingValues_eq_totalCellMissing (t : Table) (h : t.WF) :
    missingValues t = totalCellMissing t := by
  unfold missingValues totalCellMissing colMissingCount
  exact missing_swap t.cols.length t.rows h

theorem contains_iff {α : Type} [DecidableEq α] (l : List α) (a : α) :
    l.contains a = true ↔ a ∈ l := by
  simp [List.contains]

/-- C1: the Aggregator keeps exactly the rows whose Group-column value is a
member of the chosen subset, then cell (x, g) of the pivoted table equals
the sum of Y over all kept rows with that X value and that Group value,
absent when no kept row matches; on the spec's worked example the result is
X=1 → (a: 10, b: 5), X=2 → (a: 3, b: absent). -/
theorem C1_aggregator_filter_then_pivot_sum :
    (∀ (t : Table) (gc : String) (sel : List Val) (r : List Val),
        r ∈ (filterIsin t gc sel).rows ↔ r ∈ t.rows ∧ cellAt t.cols r gc ∈ sel)
    ∧ (∀ (t : Table) (xc gc yc : String) (sel : List Val) (x g : Val),
        chartDataCell t xc gc yc sel x g = specAggCell t xc gc yc sel x g)
    ∧ chartDataFull exampleT "X" "G" "Y" [Val.str "a", Val.str "b"]
        = [(Val.num 1, [(Val.str "a", some 10), (Val.str "b", some 5)]),
           (Val.num 2, [(Val.str "a", some 3), (Val.str "b", none)])] := by
  refine ⟨?_, fun t xc gc yc sel x g => rfl, by decide⟩
  intro t gc sel r
  show r ∈ t.rows.filter (fun r => sel.contains (cellAt t.cols r gc)) ↔ _
  simp [List.mem_filter, contains_iff]

/-- C2: the Summary Reporter reports row count R, column count C, and a
missing count (computed column-wise, as the code does) equal to the sum of
the is-missing predicate over every cell; zero missing cells report 0. -/
theorem C2_summary_metrics_counts (t : Table) (h : t.WF) :
    (metricsSection t).1
      = [Widget.metric "Total Rows" t.rows.length,
         Widget.metric "Total Columns" t.cols.length,
         Widget.metric "Missing Values" (totalCellMissing t)]
    ∧ (totalCellMissing t = 0 → missingValues t = 0) := by
  have hm := missingValues_eq_totalCellMissing t h
  exact ⟨by simp [metricsSection, Table.shape, hm], fun h0 => by rw [hm, h0]⟩

/-- Witness for C2 at a concrete 3-by-2 table with two missing cells. -/
theorem C2_summary_metrics_counts_witness :
    gapT.WF
    ∧ (metricsSection gapT).1
      = [Widget.metric "Total Rows" 3, Widget.metric "Total Columns" 2,
         Widget.metric "Missing Values" 2] := by
  refine ⟨by decide, ?_⟩
  rw [(C2_summary_metrics_counts gapT (by decide)).1]
  decide

/-- C3: loading the same file identity twice returns the identical parsed
table and the second load does not invoke the parser. -/
theorem C3_load_data_memoized (parse : Nat → Table)
    (cache : List (Nat × Table)) (f : Nat) :
    (load_data parse (load_data parse cache f).cache f).table
        = (load_data parse cache f).table
    ∧ (load_data parse (load_data parse cache f).cache f).parserCalls = 0 := by
  cases h : cacheLookup cache f with
  | some t => simp [load_data, h]
  | none => simp [load_data, h, cacheLookup]

/-- C4: with an empty group-value selection the plotting section shows the
"select at least one" warning and renders no chart (no exception: the
section is a total function of the selection). -/
theorem C4_empty_selection_no_raise (t : Table) (xc yc gc : String)
    (h : numericCols t ≠ []) :
    Widget.warning selWarnMsg ∈ (plottingSection t xc yc gc []).1
    ∧ ∀ p, Widget.barChart p ∉ (plottingSection t xc yc gc []).1 := by
  have h' : (numericCols t).isEmpty = false := List.isEmpty_eq_false.mpr h
  constructor
  · simp [plottingSection, h']
  · intro p
    simp [plottingSection, h']

/-- Witness for C4 on the example table. -/
theorem C4_empty_selection_no_raise_witness :
    numericCols exampleT ≠ []
    ∧ Widget.warning selWarnMsg ∈ (plottingSection exampleT "X" "Y" "G" []).1 :=
  ⟨by decide, (C4_empty_selection_no_raise exampleT "X" "Y" "G" (by decide)).1⟩

/-- C5: a non-empty selected subset matching zero rows yields an empty
filtered table and a pivoted view with zero index rows (no error: the
aggregation is a total function). -/
theorem C5_zero_match_zero_rows (t : Table) (xc gc : String) (sel : List Val)
    (hne : sel ≠ []) (hnone : ∀ r ∈ t.rows, cellAt t.cols r gc ∉ sel) :
    (filterIsin t gc sel).rows = [] ∧ chartDataIndex t xc gc sel = [] := by
  have hrows : (filterIsin t gc sel).rows = [] := by
    show t.rows.filter (fun r => sel.contains (cellAt t.cols r gc)) = []
    rw [List.filter_eq_nil_iff]
    intro r hr
    simp [contains_iff, hnone r hr]
  refine ⟨hrows, ?_⟩
  simp [chartDataIndex, pivotIndex, Table.colValues, hrows, dedupFirst,
    dedupFirstAux]

/-- Witness for C5: selecting only the value "z" matches no row of the
example table. -/
theorem C5_zero_match_zero_rows_witness :
    (filterIsin exampleT "G" [Val.str "z"]).rows = []
    ∧ chartDataIndex exampleT "X" "G" [Val.str "z"] = [] :=
  C5_zero_match_zero_rows exampleT "X" "G" [Val.str "z"] (by decide) (by decide)

/-- C6: the multiselect default is the first five distinct group values in
first-encounter order (the distinct list is duplicate-free, is a
subsequence of the column, and covers exactly the column's values); with
fewer than five distinct values the default is the whole distinct list. -/
theorem C6_multiselect_default_first_five (t : Table) (gc : String) :
    multiselectDefault t gc = (t.uniqueCol gc).take 5
    ∧ (t.uniqueCol gc).Nodup
    ∧ (t.uniqueCol gc).Sublist (t.colValues gc)
    ∧ (∀ v, v ∈ t.uniqueCol gc ↔ v ∈ t.colValues gc)
    ∧ ((t.uniqueCol gc).length < 5 → multiselectDefault t gc = t.uniqueCol gc) :=
  ⟨rfl, dedupFirst_nodup _, dedupFirst_sublist _,
   fun v => mem_dedupFirst v _,
   fun h => List.take_of_length_le (Nat.le_of_lt h)⟩

/-- Witness for C6: the example group column has two distinct values, so the
default is the full distinct list. -/
theorem C6_multiselect_default_first_five_witness :
    multiselectDefault exampleT "G" = exampleT.uniqueCol "G"
    ∧ exampleT.uniqueCol "G" = [Val.str "a", Val.str "b"] :=
  ⟨(C6_multiselect_default_first_five exampleT "G").2.2.2.2 (by decide),
   by decide⟩

/-- C7: with no numeric columns the whole plotting section is only the
warning banner; no picker, multiselect, or chart is emitted. -/
theorem C7_no_numeric_columns_warns (t : Table) (xc yc gc : String)
    (sel : List Val) (h : numericCols t = []) :
    (plottingSection t xc yc gc sel).1 = [Widget.warning noNumMsg] := by
  simp [plottingSection, h]

/-- Witness for C7 on a table with a single non-numeric column. -/
theorem C7_no_numeric_columns_warns_witness :
    numericCols textOnlyT = []
    ∧ (plottingSection textOnlyT "N" "N" "N" []).1 = [Widget.warning noNumMsg] :=
  ⟨by decide, C7_no_numeric_columns_warns textOnlyT "N" "N" "N" [] (by decide)⟩

/-- C8: an exception while loading or processing the uploaded file is caught
at the top level and rendered as the textual error message alone: the run
ends there, no partial chart is shown, and the run itself is a total
function (the hosting process survives). -/
theorem C8_top_level_catch (parse : Nat → Except String Table) (f : Nat)
    (e : String) (xc yc gc : String) (sel : List Val)
    (h : parse f = Except.error e) :
    runApp parse (some f) xc yc gc sel
      = [Widget.errorMsg ("Error processing file: " ++ e)]
    ∧ ∀ p, Widget.barChart p ∉ runApp parse (some f) xc yc gc sel := by
  constructor
  · simp [runApp, h]
  · intro p
    simp [runApp, h]

/-- Witness for C8 with a parser that rejects every file. -/
theorem C8_top_level_catch_witness :
    runApp (fun _ => Except.error "bad file") (some 0) "X" "Y" "G" []
      = [Widget.errorMsg "Error processing file: bad file"] := by
  rw [(C8_top_level_catch (fun _ => Except.error "bad file") 0 "bad file"
    "X" "Y" "G" [] rfl).1]
  decide

/-- C9: the loaded table is immutable downstream: every section returns the
table it was given, the whole successful run returns it unchanged, and the
filtered view is a new table sharing the original's columns and dtypes. -/
theorem C9_table_immutable (t : Table) (xc yc gc : String) (sel : List Val) :
    (scriptOk t xc yc gc sel).2 = t
    ∧ (metricsSection t).2 = t
    ∧ (previewSection t).2 = t
    ∧ (plottingSection t xc yc gc sel).2 = t
    ∧ (filterIsin t gc sel).cols = t.cols
    ∧ (filterIsin t gc sel).dtypes = t.dtypes := by
  have hpl : ∀ u : Table, (plottingSection u xc yc gc sel).2 = u := by
    intro u
    unfold plottingSection
    split <;> rfl
  refine ⟨?_, rfl, rfl, hpl t, rfl, rfl⟩
  simp only [scriptOk, metricsSection, previewSection]
  exact hpl t

/-- C10: the multiselect offers exactly the distinct values of the chosen
group column, and every non-empty selection drawn from those options
filters to at least one row, so aggregation over zero rows is unreachable
through the UI. -/
theorem C10_options_cover_filter_nonempty (t : Table) (xc yc gc : String)
    (sel : List Val) (hnum : numericCols t ≠ []) (hne : sel ≠ [])
    (hsub : ∀ v ∈ sel, v ∈ t.uniqueCol gc) :
    Widget.multiselect (t.uniqueCol gc) (multiselectDefault t gc)
        ∈ (plottingSection t xc yc gc sel).1
    ∧ (filterIsin t gc sel).rows ≠ [] := by
  have h' : (numericCols t).isEmpty = false := List.isEmpty_eq_false.mpr hnum
  constructor
  · simp [plottingSection, h']
  · rcases sel with _ | ⟨v, restSel⟩
    · exact absurd rfl hne
    · have hvcol : v ∈ t.rows.map (fun r => cellAt t.cols r gc) :=
        (mem_dedupFirst v _).mp (hsub v (List.mem_cons_self v restSel))
      rcases List.mem_map.mp hvcol with ⟨r, hr, hcell⟩
      intro hnil
      have hmem : r ∈ (filterIsin t gc (v :: restSel)).rows := by
        show r ∈ t.rows.filter
          (fun q => (v :: restSel).contains (cellAt t.cols q gc))
        refine List.mem_filter.mpr ⟨hr, ?_⟩
        show (v :: restSel).contains (cellAt t.cols r gc) = true
        rw [contains_iff, hcell]
        exact List.mem_cons_self v restSel
      rw [hnil] at hmem
      exact List.not_mem_nil r hmem

/-- Witness for C10: selecting the offered value "b" on the example table
keeps its middle row. -/
theorem C10_options_cover_filter_nonempty_witness :
    Widget.multiselect (exampleT.uniqueCol "G") (multiselectDefault exampleT "G")
        ∈ (plottingSection exampleT "X" "Y" "G" [Val.str "b"]).1
    ∧ (filterIsin exampleT "G" [Val.str "b"]).rows ≠ [] :=
  C10_options_cover_filter_nonempty exampleT "X" "Y" "G" [Val.str "b"]
    (by decide) (by decide) (by decide)
